import Mathlib

/-!
Verification of the TCP segment codec (`src/pcap/tcp.rs`) of pcap2socks.

The file shallowly embeds the `Tcp` struct, its constructors, predicates,
display formatting and serialization into Lean. Machine integers become `Nat`
with explicit masks where the code truncates; byte buffers become `List Nat`;
the fallible serialization returns an `Except` result paired with the buffer
contents after the call (modelling the mutable borrow).

The codec delegates the low-level wire encoding to the external `pnet` crate
(`MutableTcpPacket`, `populate`, `packet_size`, `ipv4_checksum`). Those
routines are not part of this repository; they are modelled from the spec's
wire-format description (standard TCP header layout, big-endian fields, the
IPv4 pseudo-header checksum with 16-bit one's-complement end-around-carry
summation). Each such definition is marked `Modelled from the spec`.
-/

/-- An IPv4 address as four octets (std::net::Ipv4Addr). -/
structure Ipv4Addr where
  o1 : Nat
  o2 : Nat
  o3 : Nat
  o4 : Nat
deriving DecidableEq, Repr

/-- The TCP flag constants of `pnet::packet::tcp::TcpFlags`, one bit per flag
(FIN, SYN, RST, PSH, ACK, URG, ECE, CWR), as in the spec's 8-bit flag set. -/
def TcpFlags.FIN : Nat := 1
def TcpFlags.SYN : Nat := 2
def TcpFlags.RST : Nat := 4
def TcpFlags.PSH : Nat := 8
def TcpFlags.ACK : Nat := 16
def TcpFlags.URG : Nat := 32
def TcpFlags.ECE : Nat := 64
def TcpFlags.CWR : Nat := 128

/-- The header value `pnet::packet::tcp::Tcp` stored in the `layer` field:
ports, sequence numbers, the offset/reserved/flags fields, window, checksum,
urgent pointer, raw option bytes and payload bytes. -/
structure TcpLayer where
  source : Nat
  destination : Nat
  sequence : Nat
  acknowledgement : Nat
  data_offset : Nat
  reserved : Nat
  flags : Nat
  window : Nat
  checksum : Nat
  urgent_ptr : Nat
  options : List Nat
  payload : List Nat
deriving DecidableEq, Repr

/-- The `Tcp` struct of `src/pcap/tcp.rs`: a TCP header plus the source and
destination IPv4 addresses (used only for the pseudo-header checksum). -/
structure Tcp where
  layer : TcpLayer
  src : Ipv4Addr
  dst : Ipv4Addr
deriving DecidableEq, Repr

/-- `Tcp::new_ack`: builds a TCP ACK segment (tcp.rs lines 17-43). -/
def Tcp.new_ack (src_ip_addr dst_ip_addr : Ipv4Addr)
    (src dst sequence acknowledgement : Nat) : Tcp :=
  { layer :=
      { source := src
        destination := dst
        sequence := sequence
        acknowledgement := acknowledgement
        data_offset := 5
        reserved := 0
        flags := TcpFlags.ACK
        window := 65535
        checksum := 0
        urgent_ptr := 0
        options := []
        payload := [] }
    src := src_ip_addr
    dst := dst_ip_addr }

/-- `Tcp::new_ack_syn`: `new_ack` with the flags replaced by ACK | SYN
(tcp.rs lines 46-64). -/
def Tcp.new_ack_syn (src_ip_addr dst_ip_addr : Ipv4Addr)
    (src dst sequence acknowledgement : Nat) : Tcp :=
  let tcp := Tcp.new_ack src_ip_addr dst_ip_addr src dst sequence acknowledgement
  { tcp with layer := { tcp.layer with flags := TcpFlags.ACK ||| TcpFlags.SYN } }

/-- `Tcp::new_rst`: `new_ack` with the flags replaced by RST
(tcp.rs lines 67-85). -/
def Tcp.new_rst (src_ip_addr dst_ip_addr : Ipv4Addr)
    (src dst sequence acknowledgement : Nat) : Tcp :=
  let tcp := Tcp.new_ack src_ip_addr dst_ip_addr src dst sequence acknowledgement
  { tcp with layer := { tcp.layer with flags := TcpFlags.RST } }

/-- `Tcp::get_src_ip_addr`. -/
def Tcp.get_src_ip_addr (t : Tcp) : Ipv4Addr := t.src

/-- `Tcp::get_dst_ip_addr`. -/
def Tcp.get_dst_ip_addr (t : Tcp) : Ipv4Addr := t.dst

/-- `Tcp::is_ack`: `flags & ACK != 0`. -/
def Tcp.is_ack (t : Tcp) : Bool := t.layer.flags &&& TcpFlags.ACK != 0

/-- `Tcp::is_rst`: `flags & RST != 0`. -/
def Tcp.is_rst (t : Tcp) : Bool := t.layer.flags &&& TcpFlags.RST != 0

/-- `Tcp::is_syn`: `flags & SYN != 0`. -/
def Tcp.is_syn (t : Tcp) : Bool := t.layer.flags &&& TcpFlags.SYN != 0

/-- `Tcp::is_fin`: `flags & FIN != 0`. -/
def Tcp.is_fin (t : Tcp) : Bool := t.layer.flags &&& TcpFlags.FIN != 0

/-- `Tcp::is_rst_or_fin`: `is_rst() || is_fin()`. -/
def Tcp.is_rst_or_fin (t : Tcp) : Bool := t.is_rst || t.is_fin

/-- Modelled from the spec: `TcpPacket::packet_size(&self.layer)` (pnet),
which the spec fixes as 4 x data_offset + payload length. -/
def Tcp.get_size (t : Tcp) : Nat := 4 * t.layer.data_offset + t.layer.payload.length

/-- Big-endian encoding of a 16-bit quantity as two bytes. -/
def be16 (n : Nat) : List Nat := [n / 256 % 256, n % 256]

/-- Big-endian encoding of a 32-bit quantity as four bytes. -/
def be32 (n : Nat) : List Nat :=
  [n / 16777216 % 256, n / 65536 % 256, n / 256 % 256, n % 256]

/-- One pass of the 16-bit one's-complement summation: fold byte pairs into
big-endian 16-bit words and add them (a trailing odd byte is the high half of
a zero-padded word). Modelled from the spec's description of the standard
internet checksum summation. -/
def sum16 : List Nat → Nat
  | [] => 0
  | [b] => b * 256
  | b1 :: b2 :: rest => b1 * 256 + b2 + sum16 rest

/-- End-around carry with explicit fuel: add the overflow above 16 bits back
into the low 16 bits until the sum fits. -/
def foldAux : Nat → Nat → Nat
  | 0, n => n
  | fuel + 1, n => if n < 65536 then n else foldAux fuel (n % 65536 + n / 65536)

/-- End-around carry folding of a sum into 16 bits. -/
def foldCarry (n : Nat) : Nat := foldAux n n

/-- Modelled from the spec: the internet checksum of a byte sequence, the
one's complement of the end-around-carry 16-bit sum. -/
def checksum16 (bs : List Nat) : Nat := 65535 - foldCarry (sum16 bs)

/-- Modelled from the spec: the IPv4 pseudo-header for TCP — source address,
destination address, a zero byte, protocol number 6, and the 16-bit segment
length. -/
def pseudoHeader (src dst : Ipv4Addr) (len : Nat) : List Nat :=
  [src.o1, src.o2, src.o3, src.o4, dst.o1, dst.o2, dst.o3, dst.o4,
   0, 6, len / 256 % 256, len % 256]

/-- Modelled from the spec: `pnet::packet::tcp::ipv4_checksum` — the internet
checksum over the pseudo-header concatenated with the segment bytes (whose
checksum field must be zeroed by the caller of this model). -/
def ipv4Checksum (src dst : Ipv4Addr) (bs : List Nat) : Nat :=
  checksum16 (pseudoHeader src dst bs.length ++ bs)

/-- Modelled from the spec: the wire image written by `packet.populate` — the
20 fixed header bytes in network byte order (with the given data-offset value
`d` and checksum value `ck`, each field masked to its width as the pnet
setters do), followed by the raw option bytes and the payload bytes. -/
def Tcp.wireBytes (t : Tcp) (d ck : Nat) : List Nat :=
  be16 t.layer.source ++ be16 t.layer.destination ++
  be32 t.layer.sequence ++ be32 t.layer.acknowledgement ++
  [d % 16 * 16 + t.layer.reserved % 16, t.layer.flags % 256] ++
  be16 t.layer.window ++ be16 ck ++ be16 t.layer.urgent_ptr ++
  t.layer.options ++ t.layer.payload

/-- The checksum that serialization computes for data-offset value `d`:
the pseudo-header checksum over the header-plus-payload bytes with the
checksum field treated as zero. -/
def Tcp.computedChecksum (t : Tcp) (d : Nat) : Nat :=
  ipv4Checksum t.src t.dst (t.wireBytes d 0)

/-- Overwrite the front of `buf` with `w`, keeping `buf`'s length. -/
def writeBuf (buf w : List Nat) : List Nat :=
  (w ++ buf.drop w.length).take buf.length

/-- `Tcp::serialize_internal` (tcp.rs lines 173-203): validate the buffer
capacity against the total segment size (Modelled from the spec: pnet's
buffer check, `BufferTooSmall` on failure before any byte is written), write
the header and payload, optionally overwriting the data offset with
`get_size() / 4`, then compute and write the pseudo-header checksum. The
third argument is ignored, as in the source (`_: usize`). Returns the
result together with the buffer contents after the call. -/
def Tcp.serialize_internal (t : Tcp) (buffer : List Nat) (fix_length : Bool)
    (n : Nat) (compute_checksum : Bool) : Except String Nat × List Nat :=
  if buffer.length < t.get_size then
    (Except.error "buffer is too small", buffer)
  else
    let d := if fix_length then t.get_size / 4 else t.layer.data_offset
    let ck := if compute_checksum then t.computedChecksum d else t.layer.checksum
    (Except.ok t.get_size, writeBuf buffer (t.wireBytes d ck))

/-- `Tcp::serialize`: `serialize_internal(buffer, false, 0, true)`. -/
def Tcp.serialize (t : Tcp) (buffer : List Nat) : Except String Nat × List Nat :=
  t.serialize_internal buffer false 0 true

/-- `Tcp::serialize_n`: `serialize_internal(buffer, true, n, true)`. -/
def Tcp.serialize_n (t : Tcp) (buffer : List Nat) (n : Nat) :
    Except String Nat × List Nat :=
  t.serialize_internal buffer true n true

/-- Big-endian 16-bit read at byte offset `i`, as pnet's u16be getters do
(Modelled from the spec's wire layout). -/
def read16 (p : List Nat) (i : Nat) : Nat := p.getD i 0 * 256 + p.getD (i + 1) 0

/-- Big-endian 32-bit read at byte offset `i`. -/
def read32 (p : List Nat) (i : Nat) : Nat :=
  p.getD i 0 * 16777216 + p.getD (i + 1) 0 * 65536 +
  p.getD (i + 2) 0 * 256 + p.getD (i + 3) 0

/-- `Tcp::parse` (tcp.rs lines 97-116): copy every header field out of the
packet bytes via the pnet getters (Modelled from the spec's wire layout:
fixed fields at their offsets, options as the bytes between offset 20 and
4 x data_offset), leaving the payload empty. -/
def Tcp.parse (packet : List Nat) (src dst : Ipv4Addr) : Tcp :=
  { layer :=
      { source := read16 packet 0
        destination := read16 packet 2
        sequence := read32 packet 4
        acknowledgement := read32 packet 8
        data_offset := packet.getD 12 0 / 16
        reserved := packet.getD 12 0 % 16
        flags := packet.getD 13 0
        window := read16 packet 14
        checksum := read16 packet 16
        urgent_ptr := read16 packet 18
        options := (packet.take (4 * (packet.getD 12 0 / 16))).drop 20
        payload := [] }
    src := src
    dst := dst }

/-- The field ranges the spec assigns to a TCP header: 16-bit ports, window
and urgent pointer, 32-bit sequence numbers, 4-bit data offset and reserved,
8-bit flags. -/
def Tcp.Valid (t : Tcp) : Prop :=
  t.layer.source < 65536 ∧ t.layer.destination < 65536 ∧
  t.layer.sequence < 4294967296 ∧ t.layer.acknowledgement < 4294967296 ∧
  t.layer.data_offset < 16 ∧ t.layer.reserved < 16 ∧
  t.layer.flags < 256 ∧ t.layer.window < 65536 ∧ t.layer.urgent_ptr < 65536

instance (t : Tcp) : Decidable t.Valid := by
  unfold Tcp.Valid
  infer_instance

/-- Modelled from the spec: the textual layer tag rendered for
`LayerTypes::Tcp`. -/
def layerTypeChars : List Char := ['T', 'C', 'P']

/-- The flag-summary string built by the `Display` impl (tcp.rs lines
208-231): "[", "-", the ACK slot, "-", then the RST, SYN and FIN slots,
then "]". -/
def Tcp.flagsString (t : Tcp) : List Char :=
  ['['] ++ ['-'] ++ (if t.is_ack then ['A'] else ['.']) ++ ['-'] ++
  (if t.is_rst then ['R'] else ['.']) ++
  (if t.is_syn then ['S'] else ['.']) ++
  (if t.is_fin then ['F'] else ['.']) ++ [']']

/-- The full Display rendering `"{}: {} -> {} {}"` of tcp.rs lines 233-240:
layer tag, source port, destination port and the flag summary. -/
def Tcp.display (t : Tcp) : List Char :=
  layerTypeChars ++ [':', ' '] ++ Nat.toDigits 10 t.layer.source ++
  [' ', '-', '>', ' '] ++ Nat.toDigits 10 t.layer.destination ++
  [' '] ++ t.flagsString

/-- The flag summary as the spec describes it: a fixed-width rendering fully
determined by the four flag bits, with a dedicated slot for each of ACK, RST,
SYN and FIN in that order, showing the flag letter when set and a dot
otherwise. -/
def flagsRender (a r s f : Bool) : List Char :=
  ['[', '-', if a then 'A' else '.', '-', if r then 'R' else '.',
   if s then 'S' else '.', if f then 'F' else '.', ']']

/-- A sample ACK segment used as a concrete witness input. -/
def sampleAck : Tcp := Tcp.new_ack ⟨10, 0, 0, 1⟩ ⟨10, 0, 0, 2⟩ 1234 80 1000 2000

/-- The sample ACK segment with a four-byte payload attached by the caller. -/
def samplePayloadAck : Tcp :=
  { sampleAck with layer := { sampleAck.layer with payload := [1, 2, 3, 4] } }

/-- Claim C6: `new_ack` returns a segment whose ports, sequence and
acknowledgement equal the arguments, with `data_offset = 5`, `reserved = 0`,
`flags = ACK`, `window = 65535`, `checksum = 0`, `urgent_pointer = 0`, empty
options and payload, and the given addresses; the constructor is total. -/
theorem tcp_new_ack_fields (sa da : Ipv4Addr) (sp dp seq ack : Nat) :
    (Tcp.new_ack sa da sp dp seq ack).layer.source = sp ∧
    (Tcp.new_ack sa da sp dp seq ack).layer.destination = dp ∧
    (Tcp.new_ack sa da sp dp seq ack).layer.sequence = seq ∧
    (Tcp.new_ack sa da sp dp seq ack).layer.acknowledgement = ack ∧
    (Tcp.new_ack sa da sp dp seq ack).layer.data_offset = 5 ∧
    (Tcp.new_ack sa da sp dp seq ack).layer.reserved = 0 ∧
    (Tcp.new_ack sa da sp dp seq ack).layer.flags = TcpFlags.ACK ∧
    (Tcp.new_ack sa da sp dp seq ack).layer.window = 65535 ∧
    (Tcp.new_ack sa da sp dp seq ack).layer.checksum = 0 ∧
    (Tcp.new_ack sa da sp dp seq ack).layer.urgent_ptr = 0 ∧
    (Tcp.new_ack sa da sp dp seq ack).layer.options = [] ∧
    (Tcp.new_ack sa da sp dp seq ack).layer.payload = [] ∧
    (Tcp.new_ack sa da sp dp seq ack).src = sa ∧
    (Tcp.new_ack sa da sp dp seq ack).dst = da := by
  and_intros <;> rfl

/-- Claim C7: `new_rst` has flags exactly RST (so `is_rst` is true, `is_ack`
and `is_syn` false) and `new_ack_syn` has flags exactly ACK | SYN (so both
`is_ack` and `is_syn` are true); every field other than the flags equals the
corresponding field of `new_ack` on the same arguments. -/
theorem tcp_new_rst_new_ack_syn (sa da : Ipv4Addr) (sp dp seq ack : Nat) :
    (Tcp.new_rst sa da sp dp seq ack).layer.flags = TcpFlags.RST ∧
    (Tcp.new_ack_syn sa da sp dp seq ack).layer.flags = TcpFlags.ACK ||| TcpFlags.SYN ∧
    (Tcp.new_rst sa da sp dp seq ack).is_rst = true ∧
    (Tcp.new_rst sa da sp dp seq ack).is_ack = false ∧
    (Tcp.new_rst sa da sp dp seq ack).is_syn = false ∧
    (Tcp.new_ack_syn sa da sp dp seq ack).is_ack = true ∧
    (Tcp.new_ack_syn sa da sp dp seq ack).is_syn = true ∧
    (Tcp.new_rst sa da sp dp seq ack).layer.source =
      (Tcp.new_ack sa da sp dp seq ack).layer.source ∧
    (Tcp.new_rst sa da sp dp seq ack).layer.destination =
      (Tcp.new_ack sa da sp dp seq ack).layer.destination ∧
    (Tcp.new_rst sa da sp dp seq ack).layer.sequence =
      (Tcp.new_ack sa da sp dp seq ack).layer.sequence ∧
    (Tcp.new_rst sa da sp dp seq ack).layer.acknowledgement =
      (Tcp.new_ack sa da sp dp seq ack).layer.acknowledgement ∧
    (Tcp.new_rst sa da sp dp seq ack).layer.data_offset =
      (Tcp.new_ack sa da sp dp seq ack).layer.data_offset ∧
    (Tcp.new_rst sa da sp dp seq ack).layer.reserved =
      (Tcp.new_ack sa da sp dp seq ack).layer.reserved ∧
    (Tcp.new_rst sa da sp dp seq ack).layer.window =
      (Tcp.new_ack sa da sp dp seq ack).layer.window ∧
    (Tcp.new_rst sa da sp dp seq ack).layer.checksum =
      (Tcp.new_ack sa da sp dp seq ack).layer.checksum ∧
    (Tcp.new_rst sa da sp dp seq ack).layer.urgent_ptr =
      (Tcp.new_ack sa da sp dp seq ack).layer.urgent_ptr ∧
    (Tcp.new_rst sa da sp dp seq ack).layer.options =
      (Tcp.new_ack sa da sp dp seq ack).layer.options ∧
    (Tcp.new_rst sa da sp dp seq ack).layer.payload =
      (Tcp.new_ack sa da sp dp seq ack).layer.payload ∧
    (Tcp.new_rst sa da sp dp seq ack).src = (Tcp.new_ack sa da sp dp seq ack).src ∧
    (Tcp.new_rst sa da sp dp seq ack).dst = (Tcp.new_ack sa da sp dp seq ack).dst ∧
    (Tcp.new_ack_syn sa da sp dp seq ack).layer.source =
      (Tcp.new_ack sa da sp dp seq ack).layer.source ∧
    (Tcp.new_ack_syn sa da sp dp seq ack).layer.destination =
      (Tcp.new_ack sa da sp dp seq ack).layer.destination ∧
    (Tcp.new_ack_syn sa da sp dp seq ack).layer.sequence =
      (Tcp.new_ack sa da sp dp seq ack).layer.sequence ∧
    (Tcp.new_ack_syn sa da sp dp seq ack).layer.acknowledgement =
      (Tcp.new_ack sa da sp dp seq ack).layer.acknowledgement ∧
    (Tcp.new_ack_syn sa da sp dp seq ack).layer.data_offset =
      (Tcp.new_ack sa da sp dp seq ack).layer.data_offset ∧
    (Tcp.new_ack_syn sa da sp dp seq ack).layer.reserved =
      (Tcp.new_ack sa da sp dp seq ack).layer.reserved ∧
    (Tcp.new_ack_syn sa da sp dp seq ack).layer.window =
      (Tcp.new_ack sa da sp dp seq ack).layer.window ∧
    (Tcp.new_ack_syn sa da sp dp seq ack).layer.checksum =
      (Tcp.new_ack sa da sp dp seq ack).layer.checksum ∧
    (Tcp.new_ack_syn sa da sp dp seq ack).layer.urgent_ptr =
      (Tcp.new_ack sa da sp dp seq ack).layer.urgent_ptr ∧
    (Tcp.new_ack_syn sa da sp dp seq ack).layer.options =
      (Tcp.new_ack sa da sp dp seq ack).layer.options ∧
    (Tcp.new_ack_syn sa da sp dp seq ack).layer.payload =
      (Tcp.new_ack sa da sp dp seq ack).layer.payload ∧
    (Tcp.new_ack_syn sa da sp dp seq ack).src = (Tcp.new_ack sa da sp dp seq ack).src ∧
    (Tcp.new_ack_syn sa da sp dp seq ack).dst = (Tcp.new_ack sa da sp dp seq ack).dst := by
  and_intros <;>
    first
      | rfl
      | (simp [Tcp.new_rst, Tcp.new_ack_syn, Tcp.new_ack, Tcp.is_rst, Tcp.is_ack,
            Tcp.is_syn, TcpFlags.RST, TcpFlags.ACK, TcpFlags.SYN]
         try decide)

/-- Claim C8: `is_rst_or_fin` returns true exactly when `is_rst` or `is_fin`
does, for every flag combination. -/
theorem tcp_is_rst_or_fin_iff (t : Tcp) :
    t.is_rst_or_fin = true ↔ (t.is_rst = true ∨ t.is_fin = true) := by
  simp [Tcp.is_rst_or_fin]

/-- Claim C9: the diagnostic flag summary is a fixed-width string determined
solely by the four flag bits, with dedicated slots for ACK, RST, SYN and FIN
(positions 2, 4, 5 and 6, in that order) rendered as the flag letter when set
and a dot otherwise, and the full diagnostic rendering ends with it. -/
theorem tcp_display_flag_slots (t : Tcp) :
    t.flagsString = flagsRender t.is_ack t.is_rst t.is_syn t.is_fin ∧
    t.flagsString.length = 8 ∧
    t.flagsString.getD 2 ' ' = (if t.is_ack then 'A' else '.') ∧
    t.flagsString.getD 4 ' ' = (if t.is_rst then 'R' else '.') ∧
    t.flagsString.getD 5 ' ' = (if t.is_syn then 'S' else '.') ∧
    t.flagsString.getD 6 ' ' = (if t.is_fin then 'F' else '.') ∧
    ∃ p, t.display = p ++ t.flagsString := by
  refine ⟨?_, ?_, ?_, ?_, ?_, ?_, ⟨_, rfl⟩⟩ <;>
    cases hA : t.is_ack <;> cases hR : t.is_rst <;>
    cases hS : t.is_syn <;> cases hF : t.is_fin <;>
    simp [Tcp.flagsString, flagsRender, hA, hR, hS, hF]

/-- Claim C10: the length-fixup hint argument of `serialize_n` has no effect:
any two hint values give identical results and identical buffers. -/
theorem tcp_serialize_n_hint_irrelevant (t : Tcp) (buffer : List Nat) (n m : Nat) :
    t.serialize_n buffer n = t.serialize_n buffer m := rfl

/-- Claim C2: `get_size` equals 4 x data_offset + payload length, and on a
large enough buffer both `serialize` and `serialize_n` (any hint) report
exactly this value as bytes written. -/
theorem tcp_get_size_spec (t : Tcp) (buffer : List Nat) (n : Nat)
    (h : t.get_size ≤ buffer.length) :
    t.get_size = 4 * t.layer.data_offset + t.layer.payload.length ∧
    (t.serialize buffer).fst = Except.ok t.get_size ∧
    (t.serialize_n buffer n).fst = Except.ok t.get_size := by
  have hlt : ¬ buffer.length < t.get_size := Nat.not_lt.mpr h
  refine ⟨rfl, ?_, ?_⟩
  · simp [Tcp.serialize, Tcp.serialize_internal, hlt]
  · simp [Tcp.serialize_n, Tcp.serialize_internal, hlt]

/-- Witness for C2 at a concrete ACK segment and a 20-byte buffer. -/
theorem tcp_get_size_spec_witness :
    sampleAck.get_size ≤ (List.replicate 20 (0 : Nat)).length ∧
    (sampleAck.get_size = 4 * sampleAck.layer.data_offset +
        sampleAck.layer.payload.length ∧
      (sampleAck.serialize (List.replicate 20 0)).fst = Except.ok sampleAck.get_size ∧
      (sampleAck.serialize_n (List.replicate 20 0) 7).fst = Except.ok sampleAck.get_size) :=
  ⟨by decide, tcp_get_size_spec sampleAck (List.replicate 20 0) 7 (by decide)⟩

/-- Claim C4: a buffer shorter than the total segment size makes `serialize`
and `serialize_n` fail with the buffer-too-small error leaving the buffer
untouched, and `serialize` succeeds exactly when the capacity is at least the
total size. -/
theorem tcp_serialize_buffer_too_small (t : Tcp) (n : Nat) :
    (∀ buffer : List Nat, buffer.length < t.get_size →
      t.serialize buffer = (Except.error "buffer is too small", buffer) ∧
      t.serialize_n buffer n = (Except.error "buffer is too small", buffer)) ∧
    (∀ buffer : List Nat,
      (∃ b, t.serialize buffer = (Except.ok t.get_size, b)) ↔
        t.get_size ≤ buffer.length) := by
  constructor
  · intro buffer hlt
    constructor
    · simp [Tcp.serialize, Tcp.serialize_internal, hlt]
    · simp [Tcp.serialize_n, Tcp.serialize_internal, hlt]
  · intro buffer
    constructor
    · rintro ⟨b, hb⟩
      by_contra hcon
      have hlt : buffer.length < t.get_size := by omega
      simp [Tcp.serialize, Tcp.serialize_internal, hlt] at hb
    · intro hge
      exact ⟨writeBuf buffer
          (t.wireBytes t.layer.data_offset
            (t.computedChecksum t.layer.data_offset)),
        by simp [Tcp.serialize, Tcp.serialize_internal, Nat.not_lt.mpr hge]⟩

/-- Witness for C4: a 19-byte buffer (one byte short of the 20-byte total
size) makes `serialize` fail and leaves the buffer unchanged. -/
theorem tcp_serialize_buffer_too_small_witness :
    sampleAck.serialize (List.replicate 19 0) =
      (Except.error "buffer is too small", List.replicate 19 0) :=
  ((tcp_serialize_buffer_too_small sampleAck 0).1 (List.replicate 19 0) (by decide)).1

/-- The wire image written out as an explicit byte list: the 20 fixed header
bytes followed by the option and payload bytes. -/
theorem wireBytes_eq (t : Tcp) (d ck : Nat) :
    t.wireBytes d ck =
      t.layer.source / 256 % 256 :: t.layer.source % 256 ::
      t.layer.destination / 256 % 256 :: t.layer.destination % 256 ::
      t.layer.sequence / 16777216 % 256 :: t.layer.sequence / 65536 % 256 ::
      t.layer.sequence / 256 % 256 :: t.layer.sequence % 256 ::
      t.layer.acknowledgement / 16777216 % 256 :: t.layer.acknowledgement / 65536 % 256 ::
      t.layer.acknowledgement / 256 % 256 :: t.layer.acknowledgement % 256 ::
      (d % 16 * 16 + t.layer.reserved % 16) :: t.layer.flags % 256 ::
      t.layer.window / 256 % 256 :: t.layer.window % 256 ::
      ck / 256 % 256 :: ck % 256 ::
      t.layer.urgent_ptr / 256 % 256 :: t.layer.urgent_ptr % 256 ::
      (t.layer.options ++ t.layer.payload) := rfl

/-- The wire image is 20 fixed bytes plus options plus payload. -/
theorem wireBytes_length (t : Tcp) (d ck : Nat) :
    (t.wireBytes d ck).length = 20 + t.layer.options.length + t.layer.payload.length := by
  rw [wireBytes_eq]
  simp [List.length_append]
  omega

/-- Reading inside the written region of a buffer returns the written byte. -/
theorem getD_writeBuf (buf w : List Nat) (i : Nat) (hi1 : i < buf.length)
    (hi2 : i < w.length) :
    (writeBuf buf w).getD i 0 = w.getD i 0 := by
  unfold writeBuf
  rw [List.getD_eq_getElem?_getD, List.getElem?_take_of_lt hi1,
      List.getElem?_append_left hi2, ← List.getD_eq_getElem?_getD]

/-- Byte 12 of the wire image packs the data offset (high nibble) and the
reserved field (low nibble). -/
theorem getD12_wireBytes (t : Tcp) (d ck : Nat) :
    (t.wireBytes d ck).getD 12 0 = d % 16 * 16 + t.layer.reserved % 16 := by
  rw [wireBytes_eq]
  rfl

/-- Claim C3 (amended): on a large enough buffer, `serialize_n` overwrites
the data-offset field with `get_size() / 4` — the TOTAL segment size (header
plus payload) divided by 4, truncated to the 4-bit field — not the header
length alone; the two coincide exactly when the payload is empty. -/
theorem tcp_serialize_n_fixup_writes_total (t : Tcp) (buffer : List Nat) (n : Nat)
    (h : t.get_size ≤ buffer.length) (hd : 5 ≤ t.layer.data_offset) :
    ((t.serialize_n buffer n).snd.getD 12 0) / 16 = t.get_size / 4 % 16 := by
  have hlt : ¬ buffer.length < t.get_size := Nat.not_lt.mpr h
  have h20 : 20 ≤ t.get_size := by unfold Tcp.get_size; omega
  have hrw : (t.serialize_n buffer n).snd =
      writeBuf buffer (t.wireBytes (t.get_size / 4) (t.computedChecksum (t.get_size / 4))) := by
    simp [Tcp.serialize_n, Tcp.serialize_internal, hlt]
  have hw : 12 < (t.wireBytes (t.get_size / 4) (t.computedChecksum (t.get_size / 4))).length := by
    rw [wireBytes_length]; omega
  rw [hrw, getD_writeBuf _ _ _ (by omega) hw, getD12_wireBytes]
  omega

/-- Witness for the amended C3 at a concrete segment with a 4-byte payload:
the written data-offset nibble is `24 / 4 % 16 = 6`. -/
theorem tcp_serialize_n_fixup_writes_total_witness :
    samplePayloadAck.get_size ≤ (List.replicate 24 (0 : Nat)).length ∧
    5 ≤ samplePayloadAck.layer.data_offset ∧
    ((samplePayloadAck.serialize_n (List.replicate 24 0) 9).snd.getD 12 0) / 16 =
      samplePayloadAck.get_size / 4 % 16 :=
  ⟨by decide, by decide,
    tcp_serialize_n_fixup_writes_total samplePayloadAck (List.replicate 24 0) 9
      (by decide) (by decide)⟩

/-- Counterexample to C3 as stated: for the sample ACK segment carrying a
4-byte payload (no options), the data-offset nibble actually written is 6,
while the serialized header length in bytes divided by 4 is 5. -/
theorem tcp_serialize_n_fixup_counterexample :
    ((samplePayloadAck.serialize_n (List.replicate 24 0) 0).snd.getD 12 0) / 16 = 6 ∧
    (20 + samplePayloadAck.layer.options.length) / 4 = 5 := by decide

/-- Flip bit `k` of byte `i` of a byte sequence. -/
def flipBit (bs : List Nat) (i k : Nat) : List Nat :=
  bs.set i (bs.getD i 0 ^^^ 2 ^ k)

theorem sum16_nil : sum16 [] = 0 := rfl

theorem sum16_single (b : Nat) : sum16 [b] = b * 256 := rfl

theorem sum16_cons_cons (b1 b2 : Nat) (rest : List Nat) :
    sum16 (b1 :: b2 :: rest) = b1 * 256 + b2 + sum16 rest := rfl

/-- Changing the byte at position `i` shifts the 16-bit word sum by the byte
difference times the byte's weight (256 at even positions, 1 at odd ones). -/
theorem sum16_set : ∀ (bs : List Nat) (i v : Nat), i < bs.length →
    (sum16 (bs.set i v) : Int) =
      sum16 bs + ((v : Int) - (bs.getD i 0 : Int)) * (if i % 2 = 0 then 256 else 1)
  | [], i, v, hi => by simp at hi
  | [b], 0, v, _ => by
      simp [sum16]
      ring
  | [b], (j+1), v, hi => by simp at hi
  | b1 :: b2 :: rest, 0, v, _ => by
      simp [sum16]
      ring
  | b1 :: b2 :: rest, 1, v, _ => by
      simp [sum16]
      ring
  | b1 :: b2 :: rest, (j+2), v, hi => by
      have hj : j < rest.length := by
        simp [List.length_cons] at hi
        omega
      have ih := sum16_set rest j v hj
      simp only [List.set, sum16, List.getD_cons_succ]
      push_cast
      rw [ih]
      simp only [show (j + 2) % 2 = j % 2 from by omega]
      ring

/-- The end-around-carry fold, given enough fuel, lands below 2^16 and
preserves the value modulo 65535. -/
theorem foldAux_spec : ∀ (fuel n : Nat), n ≤ fuel →
    foldAux fuel n < 65536 ∧ foldAux fuel n % 65535 = n % 65535 := by
  intro fuel
  induction fuel with
  | zero =>
      intro n hn
      have h0 : n = 0 := Nat.le_zero.mp hn
      subst h0
      simp [foldAux]
  | succ fuel ih =>
      intro n hn
      by_cases h : n < 65536
      · simp [foldAux, h]
      · have hrec := ih (n % 65536 + n / 65536) (by omega)
        simp only [foldAux, if_neg h]
        exact ⟨hrec.1, by rw [hrec.2]; omega⟩

/-- Two byte sequences whose word sums differ modulo 65535 have different
checksums. -/
theorem checksum16_ne (a b : List Nat) (h : sum16 a % 65535 ≠ sum16 b % 65535) :
    checksum16 a ≠ checksum16 b := by
  have ha := foldAux_spec (sum16 a) (sum16 a) (Nat.le_refl _)
  have hb := foldAux_spec (sum16 b) (sum16 b) (Nat.le_refl _)
  unfold checksum16 foldCarry
  intro heq
  apply h
  omega

theorem set_append12 (a0 a1 a2 a3 a4 a5 a6 a7 a8 a9 a10 a11 v : Nat)
    (bs : List Nat) (i : Nat) :
    ([a0, a1, a2, a3, a4, a5, a6, a7, a8, a9, a10, a11] ++ bs).set (i + 12) v =
      [a0, a1, a2, a3, a4, a5, a6, a7, a8, a9, a10, a11] ++ bs.set i v := rfl

theorem getD_append12 (a0 a1 a2 a3 a4 a5 a6 a7 a8 a9 a10 a11 : Nat)
    (bs : List Nat) (i : Nat) :
    ([a0, a1, a2, a3, a4, a5, a6, a7, a8, a9, a10, a11] ++ bs).getD (i + 12) 0 =
      bs.getD i 0 := rfl

/-- Claim C5: flipping any single bit of a byte sequence changes the internet
checksum computed over the IPv4 pseudo-header concatenated with it — the
16-bit one's-complement end-around-carry summation has no single-bit blind
spot. -/
theorem tcp_checksum_single_bit (src dst : Ipv4Addr) (bs : List Nat) (i k : Nat)
    (hb : ∀ b ∈ bs, b < 256) (hi : i < bs.length) (hk : k < 8) :
    ipv4Checksum src dst (flipBit bs i k) ≠ ipv4Checksum src dst bs := by
  have hblt : bs.getD i 0 < 256 := by
    rw [List.getD_eq_getElem _ _ hi]
    exact hb _ (List.getElem_mem hi)
  have hpow : (2 : Nat) ^ k < 256 := by
    calc (2 : Nat) ^ k < 2 ^ 8 := Nat.pow_lt_pow_right (by omega) hk
    _ = 256 := by norm_num
  have hvlt : bs.getD i 0 ^^^ 2 ^ k < 256 := by
    have h256 : (256 : Nat) = 2 ^ 8 := by norm_num
    rw [h256] at hblt hpow ⊢
    exact Nat.xor_lt_two_pow hblt hpow
  have hvne : bs.getD i 0 ^^^ 2 ^ k ≠ bs.getD i 0 := by
    intro h
    have h2 : bs.getD i 0 ^^^ (bs.getD i 0 ^^^ 2 ^ k) = bs.getD i 0 ^^^ bs.getD i 0 := by
      rw [h]
    rw [Nat.xor_cancel_left, Nat.xor_self] at h2
    exact absurd h2 (Nat.pos_iff_ne_zero.mp (Nat.two_pow_pos k))
  have hlen : (flipBit bs i k).length = bs.length := by simp [flipBit]
  unfold ipv4Checksum
  rw [hlen]
  apply checksum16_ne
  intro heq
  unfold pseudoHeader at heq
  set v := bs.getD i 0 ^^^ 2 ^ k with hv
  have hset : flipBit bs i k = bs.set i v := rfl
  rw [hset] at heq
  set ps : List Nat :=
    [src.o1, src.o2, src.o3, src.o4, dst.o1, dst.o2, dst.o3, dst.o4,
     0, 6, bs.length / 256 % 256, bs.length % 256] with hps
  have hfull : (ps ++ bs).set (i + 12) v = ps ++ bs.set i v := by
    rw [hps]
    exact set_append12 _ _ _ _ _ _ _ _ _ _ _ _ _ _ _
  have hilen : i + 12 < (ps ++ bs).length := by
    simp [hps, List.length_append]
    omega
  have hs := sum16_set (ps ++ bs) (i + 12) v hilen
  rw [hfull] at hs
  have hgd : (ps ++ bs).getD (i + 12) 0 = bs.getD i 0 := by
    rw [hps]
    exact getD_append12 _ _ _ _ _ _ _ _ _ _ _ _ _ _
  rw [hgd] at hs
  simp only [show (i + 12) % 2 = i % 2 from by omega] at hs
  by_cases hpar2 : i % 2 = 0
  · rw [if_pos hpar2] at hs
    omega
  · rw [if_neg hpar2] at hs
    omega

/-- Witness for C5: flipping the low bit of the first byte of a two-byte
sequence changes the pseudo-header checksum. -/
theorem tcp_checksum_single_bit_witness :
    (∀ b ∈ [69, 0], b < 256) ∧ 0 < [69, 0].length ∧ 0 < 8 ∧
      ipv4Checksum ⟨10, 0, 0, 1⟩ ⟨10, 0, 0, 2⟩ (flipBit [69, 0] 0 0) ≠
        ipv4Checksum ⟨10, 0, 0, 1⟩ ⟨10, 0, 0, 2⟩ [69, 0] :=
  ⟨by decide, by decide, by decide,
    tcp_checksum_single_bit ⟨10, 0, 0, 1⟩ ⟨10, 0, 0, 2⟩ [69, 0] 0 0
      (by decide) (by decide) (by decide)⟩

/-- Prepending a list shifts `take` by its length. -/
theorem take_append_add {α : Type} (l1 l2 : List α) (k : Nat) :
    (l1 ++ l2).take (l1.length + k) = l1 ++ l2.take k := by
  induction l1 with
  | nil => simp
  | cons a l ih => simp [List.take_succ_cons, ih, Nat.succ_add]

/-- The computed checksum is a 16-bit value. -/
theorem computedChecksum_lt (t : Tcp) (d : Nat) : t.computedChecksum d < 65536 := by
  unfold Tcp.computedChecksum ipv4Checksum checksum16
  omega

/-- Parsing an explicit 20-byte header followed by a tail recovers each field
from its wire position. -/
theorem parse_explicit (c0 c1 c2 c3 c4 c5 c6 c7 c8 c9 c10 c11 c12 c13 c14 c15 c16 c17 c18 c19 : Nat)
    (tail : List Nat) (src dst : Ipv4Addr) :
    Tcp.parse (c0 :: c1 :: c2 :: c3 :: c4 :: c5 :: c6 :: c7 :: c8 :: c9 :: c10 :: c11 ::
      c12 :: c13 :: c14 :: c15 :: c16 :: c17 :: c18 :: c19 :: tail) src dst =
    { layer :=
        { source := c0 * 256 + c1
          destination := c2 * 256 + c3
          sequence := c4 * 16777216 + c5 * 65536 + c6 * 256 + c7
          acknowledgement := c8 * 16777216 + c9 * 65536 + c10 * 256 + c11
          data_offset := c12 / 16
          reserved := c12 % 16
          flags := c13
          window := c14 * 256 + c15
          checksum := c16 * 256 + c17
          urgent_ptr := c18 * 256 + c19
          options := ((c0 :: c1 :: c2 :: c3 :: c4 :: c5 :: c6 :: c7 :: c8 :: c9 :: c10 :: c11 ::
            c12 :: c13 :: c14 :: c15 :: c16 :: c17 :: c18 :: c19 :: tail).take (4 * (c12 / 16))).drop 20
          payload := [] }
      src := src
      dst := dst } := rfl

/-- Parsing the wire image of a segment, field by field. -/
theorem parse_wireBytes (t : Tcp) (d ck : Nat) (src2 dst2 : Ipv4Addr) :
    Tcp.parse (t.wireBytes d ck) src2 dst2 =
    { layer :=
        { source := t.layer.source / 256 % 256 * 256 + t.layer.source % 256
          destination := t.layer.destination / 256 % 256 * 256 + t.layer.destination % 256
          sequence := t.layer.sequence / 16777216 % 256 * 16777216 +
            t.layer.sequence / 65536 % 256 * 65536 +
            t.layer.sequence / 256 % 256 * 256 + t.layer.sequence % 256
          acknowledgement := t.layer.acknowledgement / 16777216 % 256 * 16777216 +
            t.layer.acknowledgement / 65536 % 256 * 65536 +
            t.layer.acknowledgement / 256 % 256 * 256 + t.layer.acknowledgement % 256
          data_offset := (d % 16 * 16 + t.layer.reserved % 16) / 16
          reserved := (d % 16 * 16 + t.layer.reserved % 16) % 16
          flags := t.layer.flags % 256
          window := t.layer.window / 256 % 256 * 256 + t.layer.window % 256
          checksum := ck / 256 % 256 * 256 + ck % 256
          urgent_ptr := t.layer.urgent_ptr / 256 % 256 * 256 + t.layer.urgent_ptr % 256
          options := ((t.wireBytes d ck).take
            (4 * ((d % 16 * 16 + t.layer.reserved % 16) / 16))).drop 20
          payload := [] }
      src := src2
      dst := dst2 } := by
  rw [wireBytes_eq]
  exact parse_explicit _ _ _ _ _ _ _ _ _ _ _ _ _ _ _ _ _ _ _ _ _ _ _

/-- The wire image, grouped as the 20 fixed bytes followed by the tail. -/
theorem wireBytes_eq_append (t : Tcp) (d ck : Nat) :
    t.wireBytes d ck =
      [t.layer.source / 256 % 256, t.layer.source % 256,
       t.layer.destination / 256 % 256, t.layer.destination % 256,
       t.layer.sequence / 16777216 % 256, t.layer.sequence / 65536 % 256,
       t.layer.sequence / 256 % 256, t.layer.sequence % 256,
       t.layer.acknowledgement / 16777216 % 256, t.layer.acknowledgement / 65536 % 256,
       t.layer.acknowledgement / 256 % 256, t.layer.acknowledgement % 256,
       d % 16 * 16 + t.layer.reserved % 16, t.layer.flags % 256,
       t.layer.window / 256 % 256, t.layer.window % 256,
       ck / 256 % 256, ck % 256,
       t.layer.urgent_ptr / 256 % 256, t.layer.urgent_ptr % 256] ++
      (t.layer.options ++ t.layer.payload) := rfl

/-- Claim C1: serializing a segment with in-range fields and options
consistent with its data offset, then parsing the produced bytes with the
same addresses, recovers every header field, leaves the payload empty, and
yields as parsed checksum exactly the checksum serialization computed. -/
theorem tcp_parse_serialize_roundtrip (t : Tcp) (hv : t.Valid)
    (hopts : 20 + t.layer.options.length = 4 * t.layer.data_offset) :
    ∃ buf : List Nat,
      t.serialize (List.replicate t.get_size 0) = (Except.ok t.get_size, buf) ∧
      (Tcp.parse buf t.src t.dst).layer.source = t.layer.source ∧
      (Tcp.parse buf t.src t.dst).layer.destination = t.layer.destination ∧
      (Tcp.parse buf t.src t.dst).layer.sequence = t.layer.sequence ∧
      (Tcp.parse buf t.src t.dst).layer.acknowledgement = t.layer.acknowledgement ∧
      (Tcp.parse buf t.src t.dst).layer.data_offset = t.layer.data_offset ∧
      (Tcp.parse buf t.src t.dst).layer.reserved = t.layer.reserved ∧
      (Tcp.parse buf t.src t.dst).layer.flags = t.layer.flags ∧
      (Tcp.parse buf t.src t.dst).layer.window = t.layer.window ∧
      (Tcp.parse buf t.src t.dst).layer.urgent_ptr = t.layer.urgent_ptr ∧
      (Tcp.parse buf t.src t.dst).layer.options = t.layer.options ∧
      (Tcp.parse buf t.src t.dst).layer.payload = [] ∧
      (Tcp.parse buf t.src t.dst).layer.checksum =
        t.computedChecksum t.layer.data_offset ∧
      (Tcp.parse buf t.src t.dst).src = t.src ∧
      (Tcp.parse buf t.src t.dst).dst = t.dst := by
  obtain ⟨hs, hd2, hq, ha, hdo, hr, hf, hw, hu⟩ := hv
  have hck : t.computedChecksum t.layer.data_offset < 65536 := computedChecksum_lt t _
  have hlt : ¬ (List.replicate t.get_size (0 : Nat)).length < t.get_size := by simp
  have hser : t.serialize (List.replicate t.get_size 0) =
      (Except.ok t.get_size,
        writeBuf (List.replicate t.get_size 0)
          (t.wireBytes t.layer.data_offset (t.computedChecksum t.layer.data_offset))) := by
    simp [Tcp.serialize, Tcp.serialize_internal, hlt]
  have hwlen : (t.wireBytes t.layer.data_offset
      (t.computedChecksum t.layer.data_offset)).length = t.get_size := by
    rw [wireBytes_length]
    unfold Tcp.get_size
    omega
  have hwb : writeBuf (List.replicate t.get_size 0)
      (t.wireBytes t.layer.data_offset (t.computedChecksum t.layer.data_offset)) =
      t.wireBytes t.layer.data_offset (t.computedChecksum t.layer.data_offset) := by
    unfold writeBuf
    rw [hwlen, List.length_replicate]
    have hdrop : (List.replicate t.get_size (0 : Nat)).drop t.get_size = [] := by simp
    rw [hdrop, List.append_nil]
    exact List.take_of_length_le (Nat.le_of_eq hwlen)
  refine ⟨t.wireBytes t.layer.data_offset (t.computedChecksum t.layer.data_offset),
    by rw [hser, hwb], ?_, ?_, ?_, ?_, ?_, ?_, ?_, ?_, ?_, ?_, ?_, ?_, ?_, ?_⟩ <;>
    rw [parse_wireBytes] <;> simp only []
  · omega
  · omega
  · omega
  · omega
  · omega
  · omega
  · omega
  · omega
  · omega
  · -- options
    have h1 : 4 * ((t.layer.data_offset % 16 * 16 + t.layer.reserved % 16) / 16) =
        20 + t.layer.options.length := by omega
    rw [h1, wireBytes_eq_append]
    rw [show (20 : Nat) + t.layer.options.length =
      [t.layer.source / 256 % 256, t.layer.source % 256,
       t.layer.destination / 256 % 256, t.layer.destination % 256,
       t.layer.sequence / 16777216 % 256, t.layer.sequence / 65536 % 256,
       t.layer.sequence / 256 % 256, t.layer.sequence % 256,
       t.layer.acknowledgement / 16777216 % 256, t.layer.acknowledgement / 65536 % 256,
       t.layer.acknowledgement / 256 % 256, t.layer.acknowledgement % 256,
       t.layer.data_offset % 16 * 16 + t.layer.reserved % 16, t.layer.flags % 256,
       t.layer.window / 256 % 256, t.layer.window % 256,
       t.computedChecksum t.layer.data_offset / 256 % 256,
       t.computedChecksum t.layer.data_offset % 256,
       t.layer.urgent_ptr / 256 % 256, t.layer.urgent_ptr % 256].length +
      t.layer.options.length from by simp]
    rw [take_append_add, List.take_left]
    exact List.drop_left' (by simp)
  · omega

/-- Witness for C1 at a concrete ACK segment with valid fields and
consistent (empty) options. -/
theorem tcp_parse_serialize_roundtrip_witness :
    sampleAck.Valid ∧
    20 + sampleAck.layer.options.length = 4 * sampleAck.layer.data_offset ∧
    ∃ buf : List Nat,
      sampleAck.serialize (List.replicate sampleAck.get_size 0) =
        (Except.ok sampleAck.get_size, buf) ∧
      (Tcp.parse buf sampleAck.src sampleAck.dst).layer.source = sampleAck.layer.source ∧
      (Tcp.parse buf sampleAck.src sampleAck.dst).layer.destination = sampleAck.layer.destination ∧
      (Tcp.parse buf sampleAck.src sampleAck.dst).layer.sequence = sampleAck.layer.sequence ∧
      (Tcp.parse buf sampleAck.src sampleAck.dst).layer.acknowledgement = sampleAck.layer.acknowledgement ∧
      (Tcp.parse buf sampleAck.src sampleAck.dst).layer.data_offset = sampleAck.layer.data_offset ∧
      (Tcp.parse buf sampleAck.src sampleAck.dst).layer.reserved = sampleAck.layer.reserved ∧
      (Tcp.parse buf sampleAck.src sampleAck.dst).layer.flags = sampleAck.layer.flags ∧
      (Tcp.parse buf sampleAck.src sampleAck.dst).layer.window = sampleAck.layer.window ∧
      (Tcp.parse buf sampleAck.src sampleAck.dst).layer.urgent_ptr = sampleAck.layer.urgent_ptr ∧
      (Tcp.parse buf sampleAck.src sampleAck.dst).layer.options = sampleAck.layer.options ∧
      (Tcp.parse buf sampleAck.src sampleAck.dst).layer.payload = [] ∧
      (Tcp.parse buf sampleAck.src sampleAck.dst).layer.checksum =
        sampleAck.computedChecksum sampleAck.layer.data_offset ∧
      (Tcp.parse buf sampleAck.src sampleAck.dst).src = sampleAck.src ∧
      (Tcp.parse buf sampleAck.src sampleAck.dst).dst = sampleAck.dst :=
  ⟨by decide, by decide,
    tcp_parse_serialize_roundtrip sampleAck (by decide) (by decide)⟩
